import Mathlib

/-!
# Verification of the AMP email viewer configuration validator

Shallow embedding of `validateConfig` (src/unnamed/part_000, lines 102-172)
over a model of JavaScript values, together with proofs of the specification
claims about it.

JavaScript numbers are modelled by integers: every numeric value appearing in
the validator's comparisons (`0`, `10000`) and in the claims is integral, and
no claim depends on fractional or NaN behaviour.
-/

/-- A JavaScript value, as far as `validateConfig` can observe one: the two
bottom values, the three primitive types it inspects, and plain objects as
association lists from property names to values. -/
inductive JSValue where
  | undefined
  | null
  | bool (b : Bool)
  | num (n : Int)
  | str (s : String)
  | obj (fields : List (String × JSValue))

/-- The result of JavaScript's `typeof` operator, as an enumeration of the
tags `validateConfig` compares against (`'object'`, `'boolean'`, `'string'`,
`'number'`, and `'undefined'` for completeness). -/
inductive JSType where
  | undefinedT
  | objectT
  | booleanT
  | numberT
  | stringT
  deriving DecidableEq

/-- JavaScript `typeof`.  Note `typeof null === 'object'`. -/
def typeof : JSValue → JSType
  | .undefined => .undefinedT
  | .null => .objectT
  | .bool _ => .booleanT
  | .num _ => .numberT
  | .str _ => .stringT
  | .obj _ => .objectT

/-- JavaScript truthiness: `undefined`, `null`, `false`, `0` and `""` are
falsy; every other value the validator can meet is truthy. -/
def truthy : JSValue → Bool
  | .undefined => false
  | .null => false
  | .bool b => b
  | .num n => decide (n ≠ 0)
  | .str s => !s.data.isEmpty
  | .obj _ => true

/-- The numeric content of a value; only consulted after a
`typeof v === 'number'` guard, so the default is never observed. -/
def numVal : JSValue → Int
  | .num n => n
  | _ => 0

/-- The string content of a value; only consulted after a
`typeof v === 'string'` guard, so the default is never observed. -/
def strVal : JSValue → String
  | .str s => s
  | _ => ""

/-- JavaScript property access `c[k]`.  `none` models the thrown `TypeError`
(access on `null` or `undefined`); access on an object yields the named field
or `undefined` when absent; access on a primitive boxes the value, and none of
the validator's field names exists on a boxed primitive, so it yields
`undefined`. -/
def getField : JSValue → String → Option JSValue
  | .undefined, _ => none
  | .null, _ => none
  | .bool _, _ => some .undefined
  | .num _, _ => some .undefined
  | .str _, _ => some .undefined
  | .obj fields, k => some ((fields.lookup k).getD .undefined)

/-- The value of field `k` of an object with field list `fs`
(`undefined` when absent). -/
def fieldOf (fs : List (String × JSValue)) (k : String) : JSValue :=
  (fs.lookup k).getD .undefined

/-- Set key `k` to `v` in an association list: replace the first binding of
`k`, or append a fresh binding when there is none. -/
def setKey : List (String × JSValue) → String → JSValue → List (String × JSValue)
  | [], k, v => [(k, v)]
  | (k', v') :: rest, k, v =>
    if k' = k then (k, v) :: rest else (k', v') :: setKey rest k v

/-- JavaScript property write `c[k] = v` on an object; a write to a primitive
is silently dropped (non-strict mode semantics). -/
def setField (c : JSValue) (k : String) (v : JSValue) : JSValue :=
  match c with
  | .obj fields => .obj (setKey fields k v)
  | other => other

/-- Split a character list at the first occurrence of the literal `"://"`,
returning the scheme part and the remainder. -/
def schemeSplit : List Char → Option (List Char × List Char)
  | [] => none
  | ':' :: '/' :: '/' :: rest => some ([], rest)
  | c :: rest =>
    match schemeSplit rest with
    | none => none
    | some (sch, tail) => some (c :: sch, tail)

/-- A well-formed absolute URL, on the character list of a string: a nonempty
alphabetic scheme, the separator `"://"`, and a nonempty remainder. -/
def isAbsoluteURLChars (cs : List Char) : Bool :=
  match schemeSplit cs with
  | none => false
  | some (sch, rest) => !sch.isEmpty && sch.all Char.isAlpha && !rest.isEmpty

/-- Modelled from the spec: `isValidURL` lives in `./util`, which is not among
the provided sources.  Its documented contract: true iff the value is a string
that parses as a well-formed absolute URL.  We model a well-formed absolute
URL as nonempty alphabetic scheme + `"://"` + nonempty remainder. -/
def isValidURL (v : JSValue) : Bool :=
  match v with
  | .str s => isAbsoluteURLChars s.data
  | _ => false

/-- Replace every occurrence of the placeholder token `"%s"` by a plain
character. -/
def replaceToken : List Char → List Char
  | [] => []
  | [c] => [c]
  | c1 :: c2 :: rest =>
    if c1 = '%' ∧ c2 = 's' then 'x' :: replaceToken rest
    else c1 :: replaceToken (c2 :: rest)

/-- Modelled from the spec: `isValidURLWithPlaceholder` lives in `./util`,
which is not among the provided sources.  Its documented contract: true iff
the value is a string that parses as a well-formed absolute URL possibly
containing one recognized placeholder token.  We model the token as `"%s"`
and accept a string iff it is a well-formed absolute URL once tokens are
replaced by a literal character. -/
def isValidURLWithPlaceholder (v : JSValue) : Bool :=
  match v with
  | .str s => isAbsoluteURLChars (replaceToken s.data)
  | _ => false

/-- Full-string match of the JavaScript regex `^\d{15}$` (no multiline flag,
`\d` is `[0-9]`): the string consists of exactly 15 ASCII decimal digits. -/
def isFifteenDigits (s : String) : Bool :=
  s.data.length == 15 && s.data.all Char.isDigit

/-- An observable heap effect of a run: a property read, a property write, or
a log message.  `validateConfig` is claimed to perform only reads. -/
inductive JSEffect where
  | read (field : String)
  | write (field : String) (v : JSValue)
  | log (msg : String)

/-- Whether an effect is a plain property read. -/
def JSEffect.isRead : JSEffect → Bool
  | .read _ => true
  | _ => false

/-- Apply one effect to the candidate object: reads and logs leave it
untouched, a write updates the named field. -/
def applyEffect (c : JSValue) : JSEffect → JSValue
  | .read _ => c
  | .write k v => setField c k v
  | .log _ => c

/-- Apply a whole effect trace, in order. -/
def applyEffects (c : JSValue) (es : List JSEffect) : JSValue :=
  es.foldl applyEffect c

/-- Translation of `validateConfig` (src/unnamed/part_000, lines 102-172),
instrumented with the heap effects the run performs: one `read` entry per
property-access site of the source, appended at the point the enclosing check
is evaluated.  A field accessed several times inside one check is bound once
(property reads on plain data objects are pure, so repeated accesses see the
same value) while every access site still contributes its `read` entry.
`Except.error ()` models the `TypeError` thrown by a property access on
`null`.  Note that line 127 of the source reads the property
`processTemplateProxyOutput`, not the declared field
`transformTemplateProxyOutput`. -/
def validateConfigTr (config : JSValue) : Except Unit Bool × List JSEffect :=
  if typeof config ≠ JSType.objectT then (.ok false, []) else
  let t := [JSEffect.read "relayPageURL"]
  match getField config "relayPageURL" with
  | none => (.error (), t)
  | some relayPageURL =>
    if ¬ isValidURL relayPageURL then (.ok false, t) else
    let t := t ++ [JSEffect.read "useOpaqueOrigin"]
    match getField config "useOpaqueOrigin" with
    | none => (.error (), t)
    | some useOpaqueOrigin =>
      if typeof useOpaqueOrigin ≠ JSType.booleanT then (.ok false, t) else
      let t := t ++ [JSEffect.read "imageProxyURL"]
      match getField config "imageProxyURL" with
      | none => (.error (), t)
      | some imageProxyURL =>
        if truthy imageProxyURL ∧ ¬ isValidURLWithPlaceholder imageProxyURL then
          (.ok false, t) else
        let t := t ++ [JSEffect.read "xhrProxyURL"]
        match getField config "xhrProxyURL" with
        | none => (.error (), t)
        | some xhrProxyURL =>
          if truthy xhrProxyURL ∧ ¬ isValidURL xhrProxyURL then (.ok false, t) else
          let t := t ++ [JSEffect.read "xhrProxyURL", JSEffect.read "templateProxyURL"]
          match getField config "templateProxyURL" with
          | none => (.error (), t)
          | some templateProxyURL =>
            if ¬ truthy xhrProxyURL ∧ truthy templateProxyURL then (.ok false, t) else
            let t := t ++ [JSEffect.read "templateProxyURL"]
            if truthy templateProxyURL ∧ ¬ isValidURL templateProxyURL then
              (.ok false, t) else
            let t := t ++ [JSEffect.read "templateProxyURL",
              JSEffect.read "processTemplateProxyOutput"]
            match getField config "processTemplateProxyOutput" with
            | none => (.error (), t)
            | some processTemplateProxyOutput =>
              if ¬ truthy templateProxyURL ∧ truthy processTemplateProxyOutput then
                (.ok false, t) else
              let t := t ++ [JSEffect.read "linkRedirectURL"]
              match getField config "linkRedirectURL" with
              | none => (.error (), t)
              | some linkRedirectURL =>
                if truthy linkRedirectURL ∧ ¬ isValidURLWithPlaceholder linkRedirectURL then
                  (.ok false, t) else
                let t := t ++ [JSEffect.read "rtvPin"]
                match getField config "rtvPin" with
                | none => (.error (), t)
                | some rtvPin =>
                  if truthy rtvPin ∧ (typeof rtvPin ≠ JSType.stringT ∨
                      ¬ isFifteenDigits (strVal rtvPin)) then (.ok false, t) else
                  let t := t ++ [JSEffect.read "runtimeCDN"]
                  match getField config "runtimeCDN" with
                  | none => (.error (), t)
                  | some runtimeCDN =>
                    if truthy runtimeCDN ∧ ¬ isValidURL runtimeCDN then (.ok false, t) else
                    let t := t ++ [JSEffect.read "failOnLoadErrorAfter"]
                    match getField config "failOnLoadErrorAfter" with
                    | none => (.error (), t)
                    | some failOnLoadErrorAfter =>
                      if truthy failOnLoadErrorAfter ∧
                          (typeof failOnLoadErrorAfter ≠ JSType.numberT ∨
                           numVal failOnLoadErrorAfter < 0 ∨
                           numVal failOnLoadErrorAfter > 10000) then (.ok false, t) else
                      let t := t ++ [JSEffect.read "loadTimeout"]
                      match getField config "loadTimeout" with
                      | none => (.error (), t)
                      | some loadTimeout =>
                        if truthy loadTimeout ∧
                            (typeof loadTimeout ≠ JSType.numberT ∨
                             numVal loadTimeout < 0 ∨
                             numVal loadTimeout > 10000) then (.ok false, t) else
                        let t := t ++ [JSEffect.read "rtvPin", JSEffect.read "runtimeCDN"]
                        if truthy rtvPin ∧ truthy runtimeCDN then (.ok false, t) else
                        let t := t ++ [JSEffect.read "maximumAMPSize"]
                        match getField config "maximumAMPSize" with
                        | none => (.error (), t)
                        | some maximumAMPSize =>
                          if truthy maximumAMPSize ∧
                              (typeof maximumAMPSize ≠ JSType.numberT ∨
                               numVal maximumAMPSize < 0) then (.ok false, t) else
                          (.ok true, t)

/-- The boolean result of `validateConfig` (src/unnamed/part_000, line 102):
the first projection of the instrumented run. -/
def validateConfig (config : JSValue) : Except Unit Bool :=
  (validateConfigTr config).1

/-- The conjunction of all per-field checks of `validateConfig` on an object
with field list `fs`: each conjunct is the negation of one early-return
condition of the source, with the accessed property spelled out via
`fieldOf`. -/
def ConfigOK (fs : List (String × JSValue)) : Prop :=
  (isValidURL (fieldOf fs "relayPageURL") = true) ∧
  (typeof (fieldOf fs "useOpaqueOrigin") = JSType.booleanT) ∧
  ¬ (truthy (fieldOf fs "imageProxyURL") ∧
     ¬ isValidURLWithPlaceholder (fieldOf fs "imageProxyURL")) ∧
  ¬ (truthy (fieldOf fs "xhrProxyURL") ∧ ¬ isValidURL (fieldOf fs "xhrProxyURL")) ∧
  ¬ (¬ truthy (fieldOf fs "xhrProxyURL") ∧ truthy (fieldOf fs "templateProxyURL")) ∧
  ¬ (truthy (fieldOf fs "templateProxyURL") ∧
     ¬ isValidURL (fieldOf fs "templateProxyURL")) ∧
  ¬ (¬ truthy (fieldOf fs "templateProxyURL") ∧
     truthy (fieldOf fs "processTemplateProxyOutput")) ∧
  ¬ (truthy (fieldOf fs "linkRedirectURL") ∧
     ¬ isValidURLWithPlaceholder (fieldOf fs "linkRedirectURL")) ∧
  ¬ (truthy (fieldOf fs "rtvPin") ∧ (typeof (fieldOf fs "rtvPin") ≠ JSType.stringT ∨
     ¬ isFifteenDigits (strVal (fieldOf fs "rtvPin")))) ∧
  ¬ (truthy (fieldOf fs "runtimeCDN") ∧ ¬ isValidURL (fieldOf fs "runtimeCDN")) ∧
  ¬ (truthy (fieldOf fs "failOnLoadErrorAfter") ∧
     (typeof (fieldOf fs "failOnLoadErrorAfter") ≠ JSType.numberT ∨
      numVal (fieldOf fs "failOnLoadErrorAfter") < 0 ∨
      numVal (fieldOf fs "failOnLoadErrorAfter") > 10000)) ∧
  ¬ (truthy (fieldOf fs "loadTimeout") ∧
     (typeof (fieldOf fs "loadTimeout") ≠ JSType.numberT ∨
      numVal (fieldOf fs "loadTimeout") < 0 ∨
      numVal (fieldOf fs "loadTimeout") > 10000)) ∧
  ¬ (truthy (fieldOf fs "rtvPin") ∧ truthy (fieldOf fs "runtimeCDN")) ∧
  ¬ (truthy (fieldOf fs "maximumAMPSize") ∧
     (typeof (fieldOf fs "maximumAMPSize") ≠ JSType.numberT ∨
      numVal (fieldOf fs "maximumAMPSize") < 0))
/-- The source's chain of early-return checks, as a standalone expression on
an object's field list; `validateConfig_obj_eq` below proves `validateConfig`
equal to it on every object. -/
def checkChain (fs : List (String × JSValue)) : Except Unit Bool :=
  if ¬ isValidURL (fieldOf fs "relayPageURL") then .ok false else
  if typeof (fieldOf fs "useOpaqueOrigin") ≠ JSType.booleanT then .ok false else
  if truthy (fieldOf fs "imageProxyURL") ∧
     ¬ isValidURLWithPlaceholder (fieldOf fs "imageProxyURL") then .ok false else
  if truthy (fieldOf fs "xhrProxyURL") ∧
     ¬ isValidURL (fieldOf fs "xhrProxyURL") then .ok false else
  if ¬ truthy (fieldOf fs "xhrProxyURL") ∧
     truthy (fieldOf fs "templateProxyURL") then .ok false else
  if truthy (fieldOf fs "templateProxyURL") ∧
     ¬ isValidURL (fieldOf fs "templateProxyURL") then .ok false else
  if ¬ truthy (fieldOf fs "templateProxyURL") ∧
     truthy (fieldOf fs "processTemplateProxyOutput") then .ok false else
  if truthy (fieldOf fs "linkRedirectURL") ∧
     ¬ isValidURLWithPlaceholder (fieldOf fs "linkRedirectURL") then .ok false else
  if truthy (fieldOf fs "rtvPin") ∧ (typeof (fieldOf fs "rtvPin") ≠ JSType.stringT ∨
     ¬ isFifteenDigits (strVal (fieldOf fs "rtvPin"))) then .ok false else
  if truthy (fieldOf fs "runtimeCDN") ∧
     ¬ isValidURL (fieldOf fs "runtimeCDN") then .ok false else
  if truthy (fieldOf fs "failOnLoadErrorAfter") ∧
     (typeof (fieldOf fs "failOnLoadErrorAfter") ≠ JSType.numberT ∨
      numVal (fieldOf fs "failOnLoadErrorAfter") < 0 ∨
      numVal (fieldOf fs "failOnLoadErrorAfter") > 10000) then .ok false else
  if truthy (fieldOf fs "loadTimeout") ∧
     (typeof (fieldOf fs "loadTimeout") ≠ JSType.numberT ∨
      numVal (fieldOf fs "loadTimeout") < 0 ∨
      numVal (fieldOf fs "loadTimeout") > 10000) then .ok false else
  if truthy (fieldOf fs "rtvPin") ∧ truthy (fieldOf fs "runtimeCDN") then .ok false else
  if truthy (fieldOf fs "maximumAMPSize") ∧
     (typeof (fieldOf fs "maximumAMPSize") ≠ JSType.numberT ∨
      numVal (fieldOf fs "maximumAMPSize") < 0) then .ok false else
  .ok true

/-- The spec's minimal valid configuration object:
`relayPageURL: "https://example.com/relay"`, `useOpaqueOrigin: true`. -/
def minimalFields : List (String × JSValue) :=
  [("relayPageURL", .str "https://example.com/relay"), ("useOpaqueOrigin", .bool true)]

/-- Minimal object plus `transformTemplateProxyOutput: true` and no
`templateProxyURL`. -/
def transformNoTplFields : List (String × JSValue) :=
  minimalFields ++ [("transformTemplateProxyOutput", .bool true)]

/-- Minimal object plus `templateProxyURL` but no `xhrProxyURL`. -/
def tplOnlyFields : List (String × JSValue) :=
  minimalFields ++ [("templateProxyURL", .str "https://example.com/tpl")]

/-- `tplOnlyFields` plus `xhrProxyURL`. -/
def tplXhrFields : List (String × JSValue) :=
  tplOnlyFields ++ [("xhrProxyURL", .str "https://example.com/xhr")]

/-- Minimal object plus a 15-digit `rtvPin`. -/
def pinFields : List (String × JSValue) :=
  minimalFields ++ [("rtvPin", .str "123456789012345")]

/-- Minimal object plus a `runtimeCDN`. -/
def cdnFields : List (String × JSValue) :=
  minimalFields ++ [("runtimeCDN", .str "https://cdn.example.com")]

/-- Minimal object plus both a valid `rtvPin` and a valid `runtimeCDN`. -/
def pinCdnFields : List (String × JSValue) :=
  pinFields ++ [("runtimeCDN", .str "https://cdn.example.com")]

/-- Minimal object with the string `"true"` instead of a boolean for
`useOpaqueOrigin`. -/
def opaqueStringFields : List (String × JSValue) :=
  [("relayPageURL", .str "https://example.com/relay"), ("useOpaqueOrigin", .str "true")]

/-- Minimal object plus a 5-digit `rtvPin`. -/
def shortPinFields : List (String × JSValue) :=
  minimalFields ++ [("rtvPin", .str "12345")]

theorem getField_obj (fs : List (String × JSValue)) (k : String) :
    getField (JSValue.obj fs) k = some (fieldOf fs k) := rfl

theorem validateConfig_undefined : validateConfig .undefined = .ok false := rfl

theorem validateConfig_null : validateConfig .null = .error () := rfl

theorem validateConfig_bool (b : Bool) : validateConfig (.bool b) = .ok false := rfl

theorem validateConfig_num (n : Int) : validateConfig (.num n) = .ok false := rfl

theorem validateConfig_str (s : String) : validateConfig (.str s) = .ok false := rfl


/-- On an object, the run of `validateConfig` computes the source's chain of
early-return checks and its effect trace consists of property reads only. -/
theorem validateConfigTr_obj (fs : List (String × JSValue)) :
    validateConfig (JSValue.obj fs) = checkChain fs ∧
    ((validateConfigTr (JSValue.obj fs)).2).all JSEffect.isRead = true := by
  unfold validateConfig validateConfigTr checkChain
  rw [if_neg (show ¬ (typeof (JSValue.obj fs) ≠ JSType.objectT) from fun h => h rfl)]
  simp only [getField_obj]
  by_cases h1 : ¬ isValidURL (fieldOf fs "relayPageURL")
  · simp only [if_pos h1]
    exact ⟨trivial, rfl⟩
  · simp only [if_neg h1]
    by_cases h2 : typeof (fieldOf fs "useOpaqueOrigin") ≠ JSType.booleanT
    · simp only [if_pos h2]
      exact ⟨trivial, rfl⟩
    · simp only [if_neg h2]
      by_cases h3 : truthy (fieldOf fs "imageProxyURL") ∧
          ¬ isValidURLWithPlaceholder (fieldOf fs "imageProxyURL")
      · simp only [if_pos h3]
        exact ⟨trivial, rfl⟩
      · simp only [if_neg h3]
        by_cases h4 : truthy (fieldOf fs "xhrProxyURL") ∧
            ¬ isValidURL (fieldOf fs "xhrProxyURL")
        · simp only [if_pos h4]
          exact ⟨trivial, rfl⟩
        · simp only [if_neg h4]
          by_cases h5 : ¬ truthy (fieldOf fs "xhrProxyURL") ∧
              truthy (fieldOf fs "templateProxyURL")
          · simp only [if_pos h5]
            exact ⟨trivial, rfl⟩
          · simp only [if_neg h5]
            by_cases h6 : truthy (fieldOf fs "templateProxyURL") ∧
                ¬ isValidURL (fieldOf fs "templateProxyURL")
            · simp only [if_pos h6]
              exact ⟨trivial, rfl⟩
            · simp only [if_neg h6]
              by_cases h7 : ¬ truthy (fieldOf fs "templateProxyURL") ∧
                  truthy (fieldOf fs "processTemplateProxyOutput")
              · simp only [if_pos h7]
                exact ⟨trivial, rfl⟩
              · simp only [if_neg h7]
                by_cases h8 : truthy (fieldOf fs "linkRedirectURL") ∧
                    ¬ isValidURLWithPlaceholder (fieldOf fs "linkRedirectURL")
                · simp only [if_pos h8]
                  exact ⟨trivial, rfl⟩
                · simp only [if_neg h8]
                  by_cases h9 : truthy (fieldOf fs "rtvPin") ∧
                      (typeof (fieldOf fs "rtvPin") ≠ JSType.stringT ∨
                       ¬ isFifteenDigits (strVal (fieldOf fs "rtvPin")))
                  · simp only [if_pos h9]
                    exact ⟨trivial, rfl⟩
                  · simp only [if_neg h9]
                    by_cases h10 : truthy (fieldOf fs "runtimeCDN") ∧
                        ¬ isValidURL (fieldOf fs "runtimeCDN")
                    · simp only [if_pos h10]
                      exact ⟨trivial, rfl⟩
                    · simp only [if_neg h10]
                      by_cases h11 : truthy (fieldOf fs "failOnLoadErrorAfter") ∧
                          (typeof (fieldOf fs "failOnLoadErrorAfter") ≠ JSType.numberT ∨
                           numVal (fieldOf fs "failOnLoadErrorAfter") < 0 ∨
                           numVal (fieldOf fs "failOnLoadErrorAfter") > 10000)
                      · simp only [if_pos h11]
                        exact ⟨trivial, rfl⟩
                      · simp only [if_neg h11]
                        by_cases h12 : truthy (fieldOf fs "loadTimeout") ∧
                            (typeof (fieldOf fs "loadTimeout") ≠ JSType.numberT ∨
                             numVal (fieldOf fs "loadTimeout") < 0 ∨
                             numVal (fieldOf fs "loadTimeout") > 10000)
                        · simp only [if_pos h12]
                          exact ⟨trivial, rfl⟩
                        · simp only [if_neg h12]
                          by_cases h13 : truthy (fieldOf fs "rtvPin") ∧
                              truthy (fieldOf fs "runtimeCDN")
                          · simp only [if_pos h13]
                            exact ⟨trivial, rfl⟩
                          · simp only [if_neg h13]
                            by_cases h14 : truthy (fieldOf fs "maximumAMPSize") ∧
                                (typeof (fieldOf fs "maximumAMPSize") ≠ JSType.numberT ∨
                                 numVal (fieldOf fs "maximumAMPSize") < 0)
                            · simp only [if_pos h14]
                              exact ⟨trivial, rfl⟩
                            · simp only [if_neg h14]
                              exact ⟨trivial, rfl⟩

/-- On an object, `validateConfig` is the source's chain of early-return
checks. -/
theorem validateConfig_obj_eq (fs : List (String × JSValue)) :
    validateConfig (JSValue.obj fs) = checkChain fs :=
  (validateConfigTr_obj fs).1

/-- Every heap effect of any run of the validator is a property read: there
are no writes and no log messages, on any input. -/
theorem validateConfigTr_reads (c : JSValue) :
    ((validateConfigTr c).2).all JSEffect.isRead = true := by
  cases c with
  | obj fs => exact (validateConfigTr_obj fs).2
  | undefined => rfl
  | null => rfl
  | bool b => rfl
  | num n => rfl
  | str s => rfl

/-- Applying a trace consisting only of reads leaves the candidate object
unchanged. -/
theorem applyEffects_reads (es : List JSEffect) (h : es.all JSEffect.isRead = true) :
    ∀ c, applyEffects c es = c := by
  induction es with
  | nil => intro c; rfl
  | cons e es ih =>
    intro c
    simp only [List.all_cons, Bool.and_eq_true] at h
    cases e with
    | read f => exact ih h.2 c
    | write f v => simp [JSEffect.isRead] at h
    | log m => simp [JSEffect.isRead] at h

/-- The check chain returns `.ok true` exactly when every per-field check
passes, and `.ok false` exactly when one fails. -/
theorem checkChain_iff (fs : List (String × JSValue)) :
    (checkChain fs = .ok true ↔ ConfigOK fs) ∧
    (checkChain fs = .ok false ↔ ¬ ConfigOK fs) := by
  unfold checkChain ConfigOK
  by_cases h1 : ¬ isValidURL (fieldOf fs "relayPageURL")
  · rw [if_pos h1]
    refine ⟨iff_of_false (by simp) ?_, iff_of_true rfl ?_⟩ <;>
      exact fun hc => h1 hc.1
  · rw [if_neg h1]
    by_cases h2 : typeof (fieldOf fs "useOpaqueOrigin") ≠ JSType.booleanT
    · rw [if_pos h2]
      refine ⟨iff_of_false (by simp) ?_, iff_of_true rfl ?_⟩ <;>
        exact fun hc => h2 hc.2.1
    · rw [if_neg h2]
      by_cases h3 : truthy (fieldOf fs "imageProxyURL") ∧
          ¬ isValidURLWithPlaceholder (fieldOf fs "imageProxyURL")
      · rw [if_pos h3]
        refine ⟨iff_of_false (by simp) ?_, iff_of_true rfl ?_⟩ <;>
          exact fun hc => hc.2.2.1 h3
      · rw [if_neg h3]
        by_cases h4 : truthy (fieldOf fs "xhrProxyURL") ∧
            ¬ isValidURL (fieldOf fs "xhrProxyURL")
        · rw [if_pos h4]
          refine ⟨iff_of_false (by simp) ?_, iff_of_true rfl ?_⟩ <;>
            exact fun hc => hc.2.2.2.1 h4
        · rw [if_neg h4]
          by_cases h5 : ¬ truthy (fieldOf fs "xhrProxyURL") ∧
              truthy (fieldOf fs "templateProxyURL")
          · rw [if_pos h5]
            refine ⟨iff_of_false (by simp) ?_, iff_of_true rfl ?_⟩ <;>
              exact fun hc => hc.2.2.2.2.1 h5
          · rw [if_neg h5]
            by_cases h6 : truthy (fieldOf fs "templateProxyURL") ∧
                ¬ isValidURL (fieldOf fs "templateProxyURL")
            · rw [if_pos h6]
              refine ⟨iff_of_false (by simp) ?_, iff_of_true rfl ?_⟩ <;>
                exact fun hc => hc.2.2.2.2.2.1 h6
            · rw [if_neg h6]
              by_cases h7 : ¬ truthy (fieldOf fs "templateProxyURL") ∧
                  truthy (fieldOf fs "processTemplateProxyOutput")
              · rw [if_pos h7]
                refine ⟨iff_of_false (by simp) ?_, iff_of_true rfl ?_⟩ <;>
                  exact fun hc => hc.2.2.2.2.2.2.1 h7
              · rw [if_neg h7]
                by_cases h8 : truthy (fieldOf fs "linkRedirectURL") ∧
                    ¬ isValidURLWithPlaceholder (fieldOf fs "linkRedirectURL")
                · rw [if_pos h8]
                  refine ⟨iff_of_false (by simp) ?_, iff_of_true rfl ?_⟩ <;>
                    exact fun hc => hc.2.2.2.2.2.2.2.1 h8
                · rw [if_neg h8]
                  by_cases h9 : truthy (fieldOf fs "rtvPin") ∧
                      (typeof (fieldOf fs "rtvPin") ≠ JSType.stringT ∨
                       ¬ isFifteenDigits (strVal (fieldOf fs "rtvPin")))
                  · rw [if_pos h9]
                    refine ⟨iff_of_false (by simp) ?_, iff_of_true rfl ?_⟩ <;>
                      exact fun hc => hc.2.2.2.2.2.2.2.2.1 h9
                  · rw [if_neg h9]
                    by_cases h10 : truthy (fieldOf fs "runtimeCDN") ∧
                        ¬ isValidURL (fieldOf fs "runtimeCDN")
                    · rw [if_pos h10]
                      refine ⟨iff_of_false (by simp) ?_, iff_of_true rfl ?_⟩ <;>
                        exact fun hc => hc.2.2.2.2.2.2.2.2.2.1 h10
                    · rw [if_neg h10]
                      by_cases h11 : truthy (fieldOf fs "failOnLoadErrorAfter") ∧
                          (typeof (fieldOf fs "failOnLoadErrorAfter") ≠ JSType.numberT ∨
                           numVal (fieldOf fs "failOnLoadErrorAfter") < 0 ∨
                           numVal (fieldOf fs "failOnLoadErrorAfter") > 10000)
                      · rw [if_pos h11]
                        refine ⟨iff_of_false (by simp) ?_, iff_of_true rfl ?_⟩ <;>
                          exact fun hc => hc.2.2.2.2.2.2.2.2.2.2.1 h11
                      · rw [if_neg h11]
                        by_cases h12 : truthy (fieldOf fs "loadTimeout") ∧
                            (typeof (fieldOf fs "loadTimeout") ≠ JSType.numberT ∨
                             numVal (fieldOf fs "loadTimeout") < 0 ∨
                             numVal (fieldOf fs "loadTimeout") > 10000)
                        · rw [if_pos h12]
                          refine ⟨iff_of_false (by simp) ?_, iff_of_true rfl ?_⟩ <;>
                            exact fun hc => hc.2.2.2.2.2.2.2.2.2.2.2.1 h12
                        · rw [if_neg h12]
                          by_cases h13 : truthy (fieldOf fs "rtvPin") ∧
                              truthy (fieldOf fs "runtimeCDN")
                          · rw [if_pos h13]
                            refine ⟨iff_of_false (by simp) ?_, iff_of_true rfl ?_⟩ <;>
                              exact fun hc => hc.2.2.2.2.2.2.2.2.2.2.2.2.1 h13
                          · rw [if_neg h13]
                            by_cases h14 : truthy (fieldOf fs "maximumAMPSize") ∧
                                (typeof (fieldOf fs "maximumAMPSize") ≠ JSType.numberT ∨
                                 numVal (fieldOf fs "maximumAMPSize") < 0)
                            · rw [if_pos h14]
                              refine ⟨iff_of_false (by simp) ?_, iff_of_true rfl ?_⟩ <;>
                                exact fun hc => hc.2.2.2.2.2.2.2.2.2.2.2.2.2 h14
                            · rw [if_neg h14]
                              have hC : ConfigOK fs := ⟨not_not.mp h1, not_not.mp h2,
                                h3, h4, h5, h6, h7, h8, h9, h10, h11, h12, h13, h14⟩
                              exact ⟨iff_of_true rfl hC,
                                iff_of_false (by simp) (fun hnc => hnc hC)⟩

/-- On an object, `validateConfig` returns `.ok true` exactly when every
per-field check passes. -/
theorem validateConfig_obj_true (fs : List (String × JSValue)) :
    validateConfig (JSValue.obj fs) = .ok true ↔ ConfigOK fs := by
  rw [validateConfig_obj_eq]
  exact (checkChain_iff fs).1

/-- On an object, `validateConfig` returns `.ok false` exactly when some
per-field check fails; in particular it never throws on an object. -/
theorem validateConfig_obj_false (fs : List (String × JSValue)) :
    validateConfig (JSValue.obj fs) = .ok false ↔ ¬ ConfigOK fs := by
  rw [validateConfig_obj_eq]
  exact (checkChain_iff fs).2

/-- Looking up the key just set yields the new value. -/
theorem lookup_setKey_self (fs : List (String × JSValue)) (k : String) (v : JSValue) :
    (setKey fs k v).lookup k = some v := by
  induction fs with
  | nil => simp [setKey, List.lookup]
  | cons p rest ih =>
    obtain ⟨k', v'⟩ := p
    by_cases h : k' = k
    · subst h
      simp [setKey, List.lookup]
    · have hk : (k == k') = false := by
        simp [Ne.symm h]
      simp [setKey, h, List.lookup, hk, ih]

/-- Setting one key leaves every other key's binding unchanged. -/
theorem lookup_setKey_ne (fs : List (String × JSValue)) (k k1 : String) (v : JSValue)
    (hne : k1 ≠ k) : (setKey fs k v).lookup k1 = fs.lookup k1 := by
  have hb : (k1 == k) = false := by
    simp [hne]
  induction fs with
  | nil => simp [setKey, List.lookup, hb]
  | cons p rest ih =>
    obtain ⟨k', v'⟩ := p
    by_cases h : k' = k
    · subst h
      simp [setKey, List.lookup, hb]
    · simp [setKey, h, List.lookup, ih]

/-- `fieldOf` after setting the same key. -/
theorem fieldOf_setKey_self (fs : List (String × JSValue)) (k : String) (v : JSValue) :
    fieldOf (setKey fs k v) k = v := by
  simp [fieldOf, lookup_setKey_self]

/-- `fieldOf` after setting a different key. -/
theorem fieldOf_setKey_ne (fs : List (String × JSValue)) (k k1 : String) (v : JSValue)
    (h : k1 ≠ k) : fieldOf (setKey fs k v) k1 = fieldOf fs k1 := by
  simp [fieldOf, lookup_setKey_ne fs k k1 v h]

/-- Only a genuine object can validate successfully. -/
theorem validateConfig_ok_true_obj (c : JSValue) (h : validateConfig c = .ok true) :
    ∃ fs, c = JSValue.obj fs := by
  cases c with
  | undefined => rw [validateConfig_undefined] at h; exact absurd h (by simp)
  | null => rw [validateConfig_null] at h; exact absurd h (by simp)
  | bool b => rw [validateConfig_bool] at h; exact absurd h (by simp)
  | num n => rw [validateConfig_num] at h; exact absurd h (by simp)
  | str s => rw [validateConfig_str] at h; exact absurd h (by simp)
  | obj fs => exact ⟨fs, rfl⟩

/-- Setting one of the three truthiness-gated numeric fields to a value that
passes both numeric range shapes (or is falsy) preserves validity of an
otherwise-valid field list. -/
theorem ConfigOK_setKey_numeric (fs : List (String × JSValue)) (k : String) (v : JSValue)
    (hok : ConfigOK fs)
    (hk : k = "failOnLoadErrorAfter" ∨ k = "loadTimeout" ∨ k = "maximumAMPSize")
    (hv : ¬ (truthy v = true ∧ (typeof v ≠ JSType.numberT ∨ numVal v < 0 ∨ numVal v > 10000)))
    (hv2 : ¬ (truthy v = true ∧ (typeof v ≠ JSType.numberT ∨ numVal v < 0))) :
    ConfigOK (setKey fs k v) := by
  obtain ⟨c1, c2, c3, c4, c5, c6, c7, c8, c9, c10, c11, c12, c13, c14⟩ := hok
  have hne : ∀ k1 : String, k1 ≠ "failOnLoadErrorAfter" → k1 ≠ "loadTimeout" →
      k1 ≠ "maximumAMPSize" → fieldOf (setKey fs k v) k1 = fieldOf fs k1 := by
    intro k1 hA hB hC
    rcases hk with hkk | hkk | hkk <;> subst hkk
    · exact fieldOf_setKey_ne fs _ k1 v hA
    · exact fieldOf_setKey_ne fs _ k1 v hB
    · exact fieldOf_setKey_ne fs _ k1 v hC
  refine ⟨?_, ?_, ?_, ?_, ?_, ?_, ?_, ?_, ?_, ?_, ?_, ?_, ?_, ?_⟩
  · rw [hne "relayPageURL" (by decide) (by decide) (by decide)]
    exact c1
  · rw [hne "useOpaqueOrigin" (by decide) (by decide) (by decide)]
    exact c2
  · rw [hne "imageProxyURL" (by decide) (by decide) (by decide)]
    exact c3
  · rw [hne "xhrProxyURL" (by decide) (by decide) (by decide)]
    exact c4
  · rw [hne "xhrProxyURL" (by decide) (by decide) (by decide),
        hne "templateProxyURL" (by decide) (by decide) (by decide)]
    exact c5
  · rw [hne "templateProxyURL" (by decide) (by decide) (by decide)]
    exact c6
  · rw [hne "templateProxyURL" (by decide) (by decide) (by decide),
        hne "processTemplateProxyOutput" (by decide) (by decide) (by decide)]
    exact c7
  · rw [hne "linkRedirectURL" (by decide) (by decide) (by decide)]
    exact c8
  · rw [hne "rtvPin" (by decide) (by decide) (by decide)]
    exact c9
  · rw [hne "runtimeCDN" (by decide) (by decide) (by decide)]
    exact c10
  · by_cases hq : k = "failOnLoadErrorAfter"
    · subst hq
      rw [fieldOf_setKey_self]
      exact hv
    · rw [fieldOf_setKey_ne fs k "failOnLoadErrorAfter" v (fun hh => hq hh.symm)]
      exact c11
  · by_cases hq : k = "loadTimeout"
    · subst hq
      rw [fieldOf_setKey_self]
      exact hv
    · rw [fieldOf_setKey_ne fs k "loadTimeout" v (fun hh => hq hh.symm)]
      exact c12
  · rw [hne "rtvPin" (by decide) (by decide) (by decide),
        hne "runtimeCDN" (by decide) (by decide) (by decide)]
    exact c13
  · by_cases hq : k = "maximumAMPSize"
    · subst hq
      rw [fieldOf_setKey_self]
      exact hv2
    · rw [fieldOf_setKey_ne fs k "maximumAMPSize" v (fun hh => hq hh.symm)]
      exact c14

/-- Claim C1: the spec says that for an object accepted by the preceding
checks, a truthy `transformTemplateProxyOutput` with an absent or falsy
`templateProxyURL` forces `validateConfig` to return `false`.  The code
violates this: its dependency check (line 127) reads the property
`processTemplateProxyOutput` instead of the declared field, so the object
below — truthy `transformTemplateProxyOutput`, no `templateProxyURL`, all
other checks passing — is accepted. -/
theorem claimC1_transform_flag_dependency :
    validateConfig (JSValue.obj transformNoTplFields) = .ok true ∧
    truthy (fieldOf transformNoTplFields "transformTemplateProxyOutput") = true ∧
    truthy (fieldOf transformNoTplFields "templateProxyURL") = false :=
  ⟨rfl, rfl, rfl⟩

/-- Claim C2: non-object inputs (`undefined`, booleans, numbers, strings) are
rejected with `false`; but on `null`, which the claim also covers, the
validator does not return `false` and does not stay exception-free:
`typeof null` is `'object'`, so the type guard passes and the subsequent
property access `config.relayPageURL` throws a `TypeError` (modelled by
`Except.error ()`). -/
theorem claimC2_nonobject_inputs :
    validateConfig .undefined = .ok false ∧
    (∀ b : Bool, validateConfig (.bool b) = .ok false) ∧
    (∀ n : Int, validateConfig (.num n) = .ok false) ∧
    (∀ s : String, validateConfig (.str s) = .ok false) ∧
    validateConfig .null = .error () :=
  ⟨rfl, fun _ => rfl, fun _ => rfl, fun _ => rfl, rfl⟩

/-- Claim C3: every object with a truthy `templateProxyURL` and a falsy or
absent `xhrProxyURL` is rejected; and concretely, the otherwise-valid object
with `templateProxyURL: "https://example.com/tpl"` alone is rejected while
adding `xhrProxyURL: "https://example.com/xhr"` makes it accepted, both URLs
satisfying `isValidURL`. -/
theorem claimC3_templateProxy_requires_xhrProxy :
    (∀ fs : List (String × JSValue),
      truthy (fieldOf fs "templateProxyURL") = true →
      truthy (fieldOf fs "xhrProxyURL") = false →
      validateConfig (JSValue.obj fs) = .ok false) ∧
    validateConfig (JSValue.obj tplOnlyFields) = .ok false ∧
    validateConfig (JSValue.obj tplXhrFields) = .ok true ∧
    isValidURL (.str "https://example.com/tpl") = true ∧
    isValidURL (.str "https://example.com/xhr") = true := by
  refine ⟨?_, rfl, rfl, rfl, rfl⟩
  intro fs htpl hxhr
  rw [validateConfig_obj_false]
  exact fun hc => hc.2.2.2.2.1 ⟨by simp [hxhr], htpl⟩

/-- Claim C4: every object in which both `rtvPin` and `runtimeCDN` are truthy
is rejected; concretely, the object carrying both a valid 15-digit pin and a
valid CDN URL is rejected even though each alone yields an accepted object. -/
theorem claimC4_mutual_exclusion :
    (∀ fs : List (String × JSValue),
      truthy (fieldOf fs "rtvPin") = true →
      truthy (fieldOf fs "runtimeCDN") = true →
      validateConfig (JSValue.obj fs) = .ok false) ∧
    validateConfig (JSValue.obj pinCdnFields) = .ok false ∧
    validateConfig (JSValue.obj pinFields) = .ok true ∧
    validateConfig (JSValue.obj cdnFields) = .ok true := by
  refine ⟨?_, rfl, rfl, rfl⟩
  intro fs hpin hcdn
  rw [validateConfig_obj_false]
  exact fun hc => hc.2.2.2.2.2.2.2.2.2.2.2.2.1 ⟨hpin, hcdn⟩

/-- Claim C5: every object whose `useOpaqueOrigin` is not of exact boolean
type is rejected, with no truthy/falsy coercion; concretely, the minimal
object with the truthy non-boolean string `"true"` is rejected. -/
theorem claimC5_strict_boolean :
    (∀ fs : List (String × JSValue),
      typeof (fieldOf fs "useOpaqueOrigin") ≠ JSType.booleanT →
      validateConfig (JSValue.obj fs) = .ok false) ∧
    validateConfig (JSValue.obj opaqueStringFields) = .ok false ∧
    typeof (fieldOf opaqueStringFields "useOpaqueOrigin") = JSType.stringT ∧
    truthy (fieldOf opaqueStringFields "useOpaqueOrigin") = true := by
  refine ⟨?_, rfl, rfl, rfl⟩
  intro fs hb
  rw [validateConfig_obj_false]
  exact fun hc => hb hc.2.1

/-- Claim C6: every object with a truthy `rtvPin` that is not a string of
exactly 15 ASCII decimal digits is rejected; concretely a 5-digit pin is
rejected and an otherwise-valid object with a 15-digit pin and no
`runtimeCDN` is accepted. -/
theorem claimC6_rtvPin_digits :
    (∀ fs : List (String × JSValue),
      truthy (fieldOf fs "rtvPin") = true →
      (∀ s : String, fieldOf fs "rtvPin" = JSValue.str s → isFifteenDigits s = false) →
      validateConfig (JSValue.obj fs) = .ok false) ∧
    validateConfig (JSValue.obj shortPinFields) = .ok false ∧
    validateConfig (JSValue.obj pinFields) = .ok true ∧
    isFifteenDigits "12345" = false ∧
    isFifteenDigits "123456789012345" = true := by
  refine ⟨?_, rfl, rfl, rfl, rfl⟩
  intro fs hpin hbad
  rw [validateConfig_obj_false]
  intro hc
  apply hc.2.2.2.2.2.2.2.2.1
  refine ⟨hpin, ?_⟩
  rcases hv : fieldOf fs "rtvPin" with _ | _ | b | n | s | gfs
  · left
    simp [typeof]
  · left
    simp [typeof]
  · left
    simp [typeof]
  · left
    simp [typeof]
  · right
    simp [strVal, hbad s hv]
  · left
    simp [typeof]

/-- Claim C7: starting from any accepted configuration object, setting
`loadTimeout` to `10001` makes `validateConfig` return `false`, setting it to
`10000` keeps `true`, and setting it to `0` — a falsy value treated as absent
by the truthiness gate — skips the range check and keeps `true`; the same
zero-as-absent gating holds for `failOnLoadErrorAfter` and
`maximumAMPSize`. -/
theorem claimC7_timeout_range_zero (c : JSValue) (h : validateConfig c = .ok true) :
    validateConfig (setField c "loadTimeout" (.num 10001)) = .ok false ∧
    validateConfig (setField c "loadTimeout" (.num 10000)) = .ok true ∧
    validateConfig (setField c "loadTimeout" (.num 0)) = .ok true ∧
    validateConfig (setField c "failOnLoadErrorAfter" (.num 0)) = .ok true ∧
    validateConfig (setField c "maximumAMPSize" (.num 0)) = .ok true := by
  obtain ⟨fs, rfl⟩ := validateConfig_ok_true_obj c h
  have hC := (validateConfig_obj_true fs).mp h
  simp only [setField]
  refine ⟨?_, ?_, ?_, ?_, ?_⟩
  · rw [validateConfig_obj_false]
    intro hc
    have h12 := hc.2.2.2.2.2.2.2.2.2.2.2.1
    rw [fieldOf_setKey_self] at h12
    exact h12 ⟨by decide, Or.inr (Or.inr (by decide))⟩
  · rw [validateConfig_obj_true]
    exact ConfigOK_setKey_numeric fs "loadTimeout" (.num 10000) hC
      (Or.inr (Or.inl rfl)) (by decide) (by decide)
  · rw [validateConfig_obj_true]
    exact ConfigOK_setKey_numeric fs "loadTimeout" (.num 0) hC
      (Or.inr (Or.inl rfl)) (by decide) (by decide)
  · rw [validateConfig_obj_true]
    exact ConfigOK_setKey_numeric fs "failOnLoadErrorAfter" (.num 0) hC
      (Or.inl rfl) (by decide) (by decide)
  · rw [validateConfig_obj_true]
    exact ConfigOK_setKey_numeric fs "maximumAMPSize" (.num 0) hC
      (Or.inr (Or.inr rfl)) (by decide) (by decide)

/-- Witness for claim C7 at the spec's minimal valid object. -/
theorem claimC7_timeout_range_zero_witness :
    validateConfig (setField (JSValue.obj minimalFields) "loadTimeout" (.num 10001))
        = .ok false ∧
    validateConfig (setField (JSValue.obj minimalFields) "loadTimeout" (.num 10000))
        = .ok true ∧
    validateConfig (setField (JSValue.obj minimalFields) "loadTimeout" (.num 0))
        = .ok true :=
  ⟨(claimC7_timeout_range_zero (JSValue.obj minimalFields) rfl).1,
   (claimC7_timeout_range_zero (JSValue.obj minimalFields) rfl).2.1,
   (claimC7_timeout_range_zero (JSValue.obj minimalFields) rfl).2.2.1⟩

/-- Claim C8: on every input — whether the result is `true`, `false` or the
`null` throw — the run of `validateConfig` performs property reads only: no
write and no log appears in its effect trace, and replaying the trace against
the candidate leaves it unchanged. -/
theorem claimC8_no_side_effects :
    ∀ c : JSValue, ((validateConfigTr c).2).all JSEffect.isRead = true ∧
      applyEffects c (validateConfigTr c).2 = c :=
  fun c => ⟨validateConfigTr_reads c,
    applyEffects_reads (validateConfigTr c).2 (validateConfigTr_reads c) c⟩

/-- Claim C9: `validateConfig` is deterministic and stateless: running it a
second time on the state left behind by a first run (the candidate with the
first run's effects applied) produces the identical result and trace, so two
calls on the same unmodified input agree. -/
theorem claimC9_idempotent :
    ∀ c : JSValue,
      validateConfigTr (applyEffects c (validateConfigTr c).2) = validateConfigTr c ∧
      validateConfig (applyEffects c (validateConfigTr c).2) = validateConfig c := by
  intro c
  rw [applyEffects_reads (validateConfigTr c).2 (validateConfigTr_reads c) c]
  exact ⟨rfl, rfl⟩

/-- Claim C10: the dependency check reads `processTemplateProxyOutput`, not
`transformTemplateProxyOutput`: an object with falsy `templateProxyURL` and
truthy `processTemplateProxyOutput` is rejected, and the result on an object
never depends on the value of its `transformTemplateProxyOutput` field (any
two objects agreeing on every other field validate identically). -/
theorem claimC10_reads_processTemplateProxyOutput :
    (∀ fs : List (String × JSValue),
      truthy (fieldOf fs "templateProxyURL") = false →
      truthy (fieldOf fs "processTemplateProxyOutput") = true →
      validateConfig (JSValue.obj fs) = .ok false) ∧
    (∀ fs1 fs2 : List (String × JSValue),
      (∀ k : String, k ≠ "transformTemplateProxyOutput" → fieldOf fs1 k = fieldOf fs2 k) →
      validateConfig (JSValue.obj fs1) = validateConfig (JSValue.obj fs2)) := by
  constructor
  · intro fs htpl hproc
    rw [validateConfig_obj_false]
    exact fun hc => hc.2.2.2.2.2.2.1 ⟨by simp [htpl], hproc⟩
  · intro fs1 fs2 hagree
    rw [validateConfig_obj_eq, validateConfig_obj_eq]
    unfold checkChain
    rw [hagree "relayPageURL" (by decide), hagree "useOpaqueOrigin" (by decide),
        hagree "imageProxyURL" (by decide), hagree "xhrProxyURL" (by decide),
        hagree "templateProxyURL" (by decide),
        hagree "processTemplateProxyOutput" (by decide),
        hagree "linkRedirectURL" (by decide), hagree "rtvPin" (by decide),
        hagree "runtimeCDN" (by decide), hagree "failOnLoadErrorAfter" (by decide),
        hagree "loadTimeout" (by decide), hagree "maximumAMPSize" (by decide)]
